import Mathlib

/-!
Verification of the oc-mirror-test monitoring and orchestration code.

This file gives a shallow embedding of the repository's Go code:

* `pkg/monitor/registry.go` — `RegistryMonitor` (samples, `Stop`,
  `calculateMetrics`, `getCurrentMetrics`);
* `pkg/monitor/download.go` — `DownloadMonitor` (sampling loop,
  `calculateMetrics`, `Stop`);
* `pkg/monitor/resource.go` — `ResourceMonitor`;
* the disk-write monitor (second half of the monitor package) —
  `DiskWriteMonitor`;
* the network monitor — `NetworkMonitor`;
* `pkg/command/oc_mirror.go` — `ExtractBytesUploaded` and
  `estimateBytesFromLogs`, with the specific regular expressions realised
  as executable scanners;
* `pkg/monitor/output.go` — the order-independent directory fingerprint of
  `OutputVerifier.Analyze`, with a full executable SHA-256;
* the runner package — `compareCleanVsCached`, `runStandardTest`,
  and the network-metric combination of `runIteration`.

Wall-clock instants are rationals measured in seconds from Go's zero
`time.Time` (so a fresh monitor has `startTime = 0`, exactly like the Go
zero value, and any real call of `time.Now()` yields a positive instant).
Byte counters are unbounded integers; `float64` arithmetic on rates is
modelled with exact rationals; Go's `int64` division (which truncates
toward zero) is `Int.tdiv`.
-/

/-- One sample of the registry monitor (`RegistrySample` in registry.go).
`totalTxBytes` stores, as in the Go sampling loop, the interface counter
minus the monitor's `initialTxBytes` baseline. -/
structure RegistrySample where
  timestamp : ℚ
  totalTxBytes : ℤ
  bytesDelta : ℤ
  uploadRateMB : ℚ
  connections : ℤ
  deriving Repr, DecidableEq

/-- Aggregated registry metrics (`RegistryMetrics` in registry.go). -/
structure RegistryMetrics where
  totalBytesUploaded : ℤ
  duration : ℚ
  averageUploadRateMB : ℚ
  peakUploadRateMB : ℚ
  minUploadRateMB : ℚ
  samples : List RegistrySample
  startTime : ℚ
  endTime : ℚ
  connectionCount : ℤ
  deriving Repr, DecidableEq

/-- Mutable state of a registry monitor session (`RegistryMonitor`). -/
structure RegistryMonitor where
  startTime : ℚ
  stopTime : ℚ
  monitoring : Bool
  samples : List RegistrySample
  initialTxBytes : ℤ
  deriving Repr, DecidableEq

/-- State of a freshly constructed monitor (`NewRegistryMonitor`): Go zero
values for the times and the baseline, no samples. -/
def RegistryMonitor.init : RegistryMonitor :=
  { startTime := 0, stopTime := 0, monitoring := false, samples := [], initialTxBytes := 0 }

/-- Accumulator of the rate-statistics loop shared by
`calculateMetrics` and `getCurrentMetrics` in registry.go and by
`calculateMetrics` in download.go (the loops are textually identical). -/
structure RateAcc where
  totalRate : ℚ
  peakRate : ℚ
  minRate : ℚ
  validSamples : ℕ
  deriving Repr, DecidableEq

/-- One iteration of the Go loop
`if rate >= 0 { totalRate += rate; validSamples++; peak; min }`. -/
def rateLoopStep (acc : RateAcc) (rate : ℚ) : RateAcc :=
  if 0 ≤ rate then
    { totalRate := acc.totalRate + rate
      peakRate := if acc.peakRate < rate then rate else acc.peakRate
      minRate :=
        if acc.minRate < 0 ∨ (rate < acc.minRate ∧ 0 < rate) then rate else acc.minRate
      validSamples := acc.validSamples + 1 }
  else acc

/-- The whole rate loop: `totalRate = 0`, `peakRate = 0`, `minRate = -1`,
`validSamples = 0` folded over the sample rates. -/
def rateLoopAcc (rates : List ℚ) : RateAcc :=
  rates.foldl rateLoopStep { totalRate := 0, peakRate := 0, minRate := -1, validSamples := 0 }

/-- `(*RegistryMonitor).calculateMetrics` (registry.go lines 322-377). -/
def RegistryMonitor.calculateMetrics (rm : RegistryMonitor) : RegistryMetrics :=
  let base : RegistryMetrics :=
    { totalBytesUploaded := 0
      duration := rm.stopTime - rm.startTime
      averageUploadRateMB := 0
      peakUploadRateMB := 0
      minUploadRateMB := 0
      samples := rm.samples
      startTime := rm.startTime
      endTime := rm.stopTime
      connectionCount := 0 }
  match rm.samples.getLast? with
  | none => base
  | some lastSample =>
    let acc := rateLoopAcc (rm.samples.map (·.uploadRateMB))
    { base with
      totalBytesUploaded := lastSample.totalTxBytes
      connectionCount := lastSample.connections
      averageUploadRateMB :=
        if 0 < acc.validSamples then acc.totalRate / (acc.validSamples : ℚ)
        else if 0 < base.duration then
          (lastSample.totalTxBytes : ℚ) / base.duration / (1024 * 1024)
        else 0
      peakUploadRateMB := acc.peakRate
      minUploadRateMB := if acc.minRate < 0 then 0 else acc.minRate }

/-- `(*RegistryMonitor).Stop` (registry.go lines 98-110): flips the flag,
stamps `stopTime` with the current instant, then aggregates. The bounded
grace wait does not change the state. -/
def RegistryMonitor.stop (rm : RegistryMonitor) (now : ℚ) : RegistryMonitor × RegistryMetrics :=
  let rm2 := { rm with monitoring := false, stopTime := now }
  (rm2, rm2.calculateMetrics)

/-- `(*RegistryMonitor).getCurrentMetrics` (registry.go lines 145-193), the
live query behind `GetCurrentMetrics`, taken at wall-clock instant `now`. -/
def RegistryMonitor.getCurrentMetrics (rm : RegistryMonitor) (now : ℚ) : RegistryMetrics :=
  let base : RegistryMetrics :=
    { totalBytesUploaded := 0
      duration := now - rm.startTime
      averageUploadRateMB := 0
      peakUploadRateMB := 0
      minUploadRateMB := 0
      samples := rm.samples
      startTime := rm.startTime
      endTime := now
      connectionCount := 0 }
  match rm.samples.getLast? with
  | none => base
  | some lastSample =>
    let acc := rateLoopAcc (rm.samples.map (·.uploadRateMB))
    { base with
      totalBytesUploaded := lastSample.totalTxBytes - rm.initialTxBytes
      averageUploadRateMB :=
        if 0 < acc.validSamples then acc.totalRate / (acc.validSamples : ℚ) else 0
      peakUploadRateMB := acc.peakRate
      minUploadRateMB := if acc.minRate < 0 then 0 else acc.minRate }

/-- One sample of the download monitor (`DownloadSample` in download.go).
`totalBytes` stores directory size net of the `initialBytes` baseline. -/
structure DownloadSample where
  timestamp : ℚ
  totalBytes : ℤ
  bytesDelta : ℤ
  downloadRateMB : ℚ
  fileCount : ℤ
  deriving Repr, DecidableEq

/-- Aggregated download metrics (`DownloadMetrics` in download.go). -/
structure DownloadMetrics where
  totalBytesDownloaded : ℤ
  totalFiles : ℤ
  duration : ℚ
  averageSpeedMBs : ℚ
  peakSpeedMBs : ℚ
  minSpeedMBs : ℚ
  samples : List DownloadSample
  startTime : ℚ
  endTime : ℚ
  deriving Repr, DecidableEq

/-- Mutable state of a download monitor session (`DownloadMonitor`). -/
structure DownloadMonitor where
  startTime : ℚ
  stopTime : ℚ
  monitoring : Bool
  samples : List DownloadSample
  initialBytes : ℤ
  deriving Repr, DecidableEq

/-- A freshly constructed download monitor (`NewDownloadMonitor`):
`initialBytes` is only assigned by `Start`, so it is 0 here. -/
def DownloadMonitor.init : DownloadMonitor :=
  { startTime := 0, stopTime := 0, monitoring := false, samples := [], initialBytes := 0 }

/-- `(*DownloadMonitor).calculateMetrics` (download.go lines 271-333).
When the sample list is empty the Go code re-reads the target directory;
`dirSize` and `fileCount` are the values those reads return. -/
def DownloadMonitor.calculateMetrics (dm : DownloadMonitor) (dirSize fileCount : ℤ) :
    DownloadMetrics :=
  let dur := dm.stopTime - dm.startTime
  match dm.samples.getLast? with
  | none =>
    let total := dirSize - dm.initialBytes
    { totalBytesDownloaded := total
      totalFiles := fileCount
      duration := dur
      averageSpeedMBs := if 0 < dur then (total : ℚ) / dur / (1024 * 1024) else 0
      peakSpeedMBs := 0
      minSpeedMBs := 0
      samples := dm.samples
      startTime := dm.startTime
      endTime := dm.stopTime }
  | some lastSample =>
    let acc := rateLoopAcc (dm.samples.map (·.downloadRateMB))
    { totalBytesDownloaded := lastSample.totalBytes
      totalFiles := lastSample.fileCount
      duration := dur
      averageSpeedMBs :=
        if 0 < acc.validSamples then acc.totalRate / (acc.validSamples : ℚ)
        else if 0 < dur then (lastSample.totalBytes : ℚ) / dur / (1024 * 1024)
        else 0
      peakSpeedMBs := acc.peakRate
      minSpeedMBs := if acc.minRate < 0 then 0 else acc.minRate
      samples := dm.samples
      startTime := dm.startTime
      endTime := dm.stopTime }

/-- `(*DownloadMonitor).Stop` (download.go lines 114-130). -/
def DownloadMonitor.stop (dm : DownloadMonitor) (now : ℚ) (dirSize fileCount : ℤ) :
    DownloadMonitor × DownloadMetrics :=
  let dm2 := { dm with monitoring := false, stopTime := now }
  (dm2, dm2.calculateMetrics dirSize fileCount)

/-- The body of the download sampling loop (download.go lines 159-227): each
observation is a tick `(time, directory size, file count)`; the running
`lastBytes`/`lastSampleTime` pair starts at `(initialBytes, startTime)`. -/
def downloadLoopAux (initialBytes : ℤ) (lastBytes : ℤ) (lastTime : ℚ) :
    List (ℚ × ℤ × ℤ) → List DownloadSample
  | [] => []
  | (t, size, count) :: rest =>
    let bytesDelta := size - lastBytes
    let elapsed := t - lastTime
    let rate := if 0 < elapsed then (bytesDelta : ℚ) / elapsed / (1024 * 1024) else 0
    { timestamp := t
      totalBytes := size - initialBytes
      bytesDelta := bytesDelta
      downloadRateMB := rate
      fileCount := count } :: downloadLoopAux initialBytes size t rest

/-- Samples produced by a whole monitoring session from its tick
observations. -/
def downloadBuildSamples (initialBytes : ℤ) (startTime : ℚ)
    (obs : List (ℚ × ℤ × ℤ)) : List DownloadSample :=
  downloadLoopAux initialBytes initialBytes startTime obs

/-- A complete download-monitor session: `Start` captures `initialBytes`,
the loop records one sample per observation, `Stop` aggregates.
`dirSizeAtStop` and `fileCountAtStop` model the directory reads
`calculateMetrics` performs when no sample was recorded. -/
def DownloadMonitor.runSession (initialBytes : ℤ) (startTime : ℚ)
    (obs : List (ℚ × ℤ × ℤ)) (stopTime : ℚ) (dirSizeAtStop fileCountAtStop : ℤ) :
    DownloadMetrics :=
  DownloadMonitor.calculateMetrics
    { startTime := startTime
      stopTime := stopTime
      monitoring := false
      samples := downloadBuildSamples initialBytes startTime obs
      initialBytes := initialBytes }
    dirSizeAtStop fileCountAtStop

/-- One sample of the resource monitor (`ResourceSample` in resource.go). -/
structure ResourceSample where
  timestamp : ℚ
  cpuPercent : ℚ
  memoryRSS : ℤ
  memoryVMS : ℤ
  memoryPercent : ℚ
  numGoroutines : ℤ
  numThreads : ℤ
  deriving Repr, DecidableEq

/-- Aggregated resource metrics (`ResourceMetrics` in resource.go). -/
structure ResourceMetrics where
  duration : ℚ
  cpuAvgPercent : ℚ
  cpuPeakPercent : ℚ
  memoryAvgMB : ℚ
  memoryPeakMB : ℚ
  memoryPeakRSS : ℤ
  avgGoroutines : ℚ
  peakGoroutines : ℤ
  avgThreads : ℚ
  peakThreads : ℤ
  sampleCount : ℕ
  samples : List ResourceSample
  deriving Repr, DecidableEq

/-- Mutable state of a resource monitor session (`ResourceMonitor`). -/
structure ResourceMonitor where
  startTime : ℚ
  stopTime : ℚ
  monitoring : Bool
  samples : List ResourceSample
  deriving Repr, DecidableEq

/-- A freshly constructed resource monitor (`NewResourceMonitor`). -/
def ResourceMonitor.init : ResourceMonitor :=
  { startTime := 0, stopTime := 0, monitoring := false, samples := [] }

/-- Accumulator of the totals/peaks loop of resource.go `calculateMetrics`. -/
structure ResourceAcc where
  totalCPU : ℚ
  totalMem : ℚ
  totalGoroutines : ℤ
  totalThreads : ℤ
  cpuPeakPercent : ℚ
  memoryPeakRSS : ℤ
  peakGoroutines : ℤ
  peakThreads : ℤ
  deriving Repr, DecidableEq

/-- One iteration of the resource-metrics loop (resource.go lines 326-344). -/
def resourceLoopStep (acc : ResourceAcc) (s : ResourceSample) : ResourceAcc :=
  { totalCPU := acc.totalCPU + s.cpuPercent
    totalMem := acc.totalMem + (s.memoryRSS : ℚ)
    totalGoroutines := acc.totalGoroutines + s.numGoroutines
    totalThreads := acc.totalThreads + s.numThreads
    cpuPeakPercent := if acc.cpuPeakPercent < s.cpuPercent then s.cpuPercent else acc.cpuPeakPercent
    memoryPeakRSS := if acc.memoryPeakRSS < s.memoryRSS then s.memoryRSS else acc.memoryPeakRSS
    peakGoroutines :=
      if acc.peakGoroutines < s.numGoroutines then s.numGoroutines else acc.peakGoroutines
    peakThreads := if acc.peakThreads < s.numThreads then s.numThreads else acc.peakThreads }

/-- `(*ResourceMonitor).calculateMetrics` (resource.go lines 307-354). -/
def ResourceMonitor.calculateMetrics (rm : ResourceMonitor) : ResourceMetrics :=
  let base : ResourceMetrics :=
    { duration := rm.stopTime - rm.startTime
      cpuAvgPercent := 0
      cpuPeakPercent := 0
      memoryAvgMB := 0
      memoryPeakMB := 0
      memoryPeakRSS := 0
      avgGoroutines := 0
      peakGoroutines := 0
      avgThreads := 0
      peakThreads := 0
      sampleCount := rm.samples.length
      samples := rm.samples }
  if rm.samples.isEmpty then base
  else
    let acc := rm.samples.foldl resourceLoopStep
      { totalCPU := 0, totalMem := 0, totalGoroutines := 0, totalThreads := 0
        cpuPeakPercent := 0, memoryPeakRSS := 0, peakGoroutines := 0, peakThreads := 0 }
    let count : ℚ := (rm.samples.length : ℚ)
    { base with
      cpuAvgPercent := acc.totalCPU / count
      cpuPeakPercent := acc.cpuPeakPercent
      memoryAvgMB := acc.totalMem / count / (1024 * 1024)
      memoryPeakMB := (acc.memoryPeakRSS : ℚ) / (1024 * 1024)
      memoryPeakRSS := acc.memoryPeakRSS
      avgGoroutines := (acc.totalGoroutines : ℚ) / count
      peakGoroutines := acc.peakGoroutines
      avgThreads := (acc.totalThreads : ℚ) / count
      peakThreads := acc.peakThreads }

/-- `(*ResourceMonitor).Stop` (resource.go lines 109-121). -/
def ResourceMonitor.stop (rm : ResourceMonitor) (now : ℚ) : ResourceMonitor × ResourceMetrics :=
  let rm2 := { rm with monitoring := false, stopTime := now }
  (rm2, rm2.calculateMetrics)

/-- One sample of the disk-write monitor (`DiskWriteSample`). -/
structure DiskWriteSample where
  timestamp : ℚ
  totalBytes : ℤ
  fileCount : ℤ
  writeRate : ℚ
  deriving Repr, DecidableEq

/-- Aggregated disk-write metrics (`DiskWriteMetrics`). -/
structure DiskWriteMetrics where
  totalBytesWritten : ℤ
  totalFiles : ℤ
  duration : ℚ
  averageWriteRateMBs : ℚ
  peakWriteRateMBs : ℚ
  samples : List DiskWriteSample
  deriving Repr, DecidableEq

/-- Mutable state of a disk-write monitor session (`DiskWriteMonitor`). -/
structure DiskWriteMonitor where
  startTime : ℚ
  stopTime : ℚ
  monitoring : Bool
  samples : List DiskWriteSample
  deriving Repr, DecidableEq

/-- A freshly constructed disk-write monitor (`NewDiskWriteMonitor`). -/
def DiskWriteMonitor.init : DiskWriteMonitor :=
  { startTime := 0, stopTime := 0, monitoring := false, samples := [] }

/-- Accumulator of the disk-write rate loop (`if rate > 0`, no minimum). -/
structure DiskRateAcc where
  totalRate : ℚ
  peakRate : ℚ
  validSamples : ℕ
  deriving Repr, DecidableEq

/-- One iteration of the disk-write rate loop. -/
def diskRateStep (acc : DiskRateAcc) (rate : ℚ) : DiskRateAcc :=
  if 0 < rate then
    { totalRate := acc.totalRate + rate
      peakRate := if acc.peakRate < rate then rate else acc.peakRate
      validSamples := acc.validSamples + 1 }
  else acc

/-- `(*DiskWriteMonitor).calculateMetrics`. -/
def DiskWriteMonitor.calculateMetrics (dm : DiskWriteMonitor) : DiskWriteMetrics :=
  let dur := dm.stopTime - dm.startTime
  match dm.samples.getLast? with
  | none =>
    { totalBytesWritten := 0, totalFiles := 0, duration := dur
      averageWriteRateMBs := 0, peakWriteRateMBs := 0, samples := dm.samples }
  | some lastSample =>
    let acc := (dm.samples.map (·.writeRate)).foldl diskRateStep
      { totalRate := 0, peakRate := 0, validSamples := 0 }
    { totalBytesWritten := lastSample.totalBytes
      totalFiles := lastSample.fileCount
      duration := dur
      averageWriteRateMBs :=
        if 0 < acc.validSamples then acc.totalRate / (acc.validSamples : ℚ)
        else if 0 < dur then (lastSample.totalBytes : ℚ) / dur / (1024 * 1024)
        else 0
      peakWriteRateMBs := acc.peakRate
      samples := dm.samples }

/-- `(*DiskWriteMonitor).Stop`. -/
def DiskWriteMonitor.stop (dm : DiskWriteMonitor) (now : ℚ) :
    DiskWriteMonitor × DiskWriteMetrics :=
  let dm2 := { dm with monitoring := false, stopTime := now }
  (dm2, dm2.calculateMetrics)

/-- One sample of the network monitor (`BandwidthSample`). -/
structure BandwidthSample where
  timestamp : ℚ
  rxBytes : ℤ
  txBytes : ℤ
  rxRate : ℚ
  txRate : ℚ
  deriving Repr, DecidableEq

/-- Aggregated network metrics (`NetworkMetrics`). -/
structure NetworkMetrics where
  averageBandwidthMbps : ℚ
  peakBandwidthMbps : ℚ
  totalBytesTransferred : ℤ
  duration : ℚ
  averageRxRateMbps : ℚ
  averageTxRateMbps : ℚ
  deriving Repr, DecidableEq

/-- The Go zero value `NetworkMetrics{}`. -/
def NetworkMetrics.zero : NetworkMetrics :=
  { averageBandwidthMbps := 0, peakBandwidthMbps := 0, totalBytesTransferred := 0
    duration := 0, averageRxRateMbps := 0, averageTxRateMbps := 0 }

/-- Mutable state of a network monitor session (`NetworkMonitor`). -/
structure NetworkMonitor where
  startTime : ℚ
  stopTime : ℚ
  monitoring : Bool
  samples : List BandwidthSample
  deriving Repr, DecidableEq

/-- A freshly constructed network monitor (`NewNetworkMonitor`). -/
def NetworkMonitor.init : NetworkMonitor :=
  { startTime := 0, stopTime := 0, monitoring := false, samples := [] }

/-- Accumulator of the network rate loop (`if rx > 0 || tx > 0`). -/
structure NetRateAcc where
  totalRxRate : ℚ
  totalTxRate : ℚ
  peakRate : ℚ
  validSamples : ℕ
  deriving Repr, DecidableEq

/-- One iteration of the network rate loop. -/
def netRateStep (acc : NetRateAcc) (s : BandwidthSample) : NetRateAcc :=
  if 0 < s.rxRate ∨ 0 < s.txRate then
    let totalRate := s.rxRate + s.txRate
    { totalRxRate := acc.totalRxRate + s.rxRate
      totalTxRate := acc.totalTxRate + s.txRate
      peakRate := if acc.peakRate < totalRate then totalRate else acc.peakRate
      validSamples := acc.validSamples + 1 }
  else acc

/-- `(*NetworkMonitor).calculateMetrics`. -/
def NetworkMonitor.calculateMetrics (nm : NetworkMonitor) : NetworkMetrics :=
  let dur := nm.stopTime - nm.startTime
  match nm.samples.head?, nm.samples.getLast? with
  | some firstSample, some lastSample =>
    let acc := nm.samples.foldl netRateStep
      { totalRxRate := 0, totalTxRate := 0, peakRate := 0, validSamples := 0 }
    let avgRx := if 0 < acc.validSamples then acc.totalRxRate / (acc.validSamples : ℚ) else 0
    let avgTx := if 0 < acc.validSamples then acc.totalTxRate / (acc.validSamples : ℚ) else 0
    { averageBandwidthMbps := if 0 < acc.validSamples then avgRx + avgTx else 0
      peakBandwidthMbps := acc.peakRate
      totalBytesTransferred :=
        (lastSample.rxBytes - firstSample.rxBytes) + (lastSample.txBytes - firstSample.txBytes)
      duration := dur
      averageRxRateMbps := avgRx
      averageTxRateMbps := avgTx }
  | _, _ => { NetworkMetrics.zero with duration := dur }

/-- `(*NetworkMonitor).Stop` (part_004 lines 93-105): when the monitor is
not running it returns the zero aggregate without touching the state;
otherwise it stamps `stopTime` and aggregates. -/
def NetworkMonitor.stop (nm : NetworkMonitor) (now : ℚ) : NetworkMonitor × NetworkMetrics :=
  if nm.monitoring then
    let nm2 := { nm with monitoring := false, stopTime := now }
    (nm2, nm2.calculateMetrics)
  else (nm, NetworkMetrics.zero)

/-- Sample list mapped through `totalBytes`: each sample stores the observed
directory size net of the baseline, independently of the carried
`lastBytes`/`lastSampleTime` state. -/
theorem downloadLoopAux_map_totalBytes (initialBytes : ℤ) :
    ∀ (obs : List (ℚ × ℤ × ℤ)) (lastBytes : ℤ) (lastTime : ℚ),
      (downloadLoopAux initialBytes lastBytes lastTime obs).map (·.totalBytes)
        = obs.map (fun o => o.2.1 - initialBytes)
  | [], _, _ => rfl
  | (t, size, count) :: rest, lastBytes, lastTime => by
    simp only [downloadLoopAux, List.map_cons]
    exact congrArg _ (downloadLoopAux_map_totalBytes initialBytes rest size t)

/-- A concrete registry session for claims about the live query: one sample,
non-zero `initialTxBytes` baseline. -/
def regSessionC1 : RegistryMonitor :=
  { startTime := 0, stopTime := 0, monitoring := true
    samples := [{ timestamp := 1, totalTxBytes := 100, bytesDelta := 100,
                  uploadRateMB := 1, connections := 2 }]
    initialTxBytes := 5 }

/-- Claim C1 (counterexample): for a session whose baseline `initialTxBytes`
is 5 and whose single sample carries `totalTxBytes = 100` (already net of
the baseline, as the sampling loop stores it), the live query reports
95 bytes uploaded while `Stop`'s `calculateMetrics` reports 100: the live
query subtracts the baseline a second time, so it does not use the same
aggregation formula as `Stop` for the total. -/
theorem registry_live_query_counterexample :
    (regSessionC1.getCurrentMetrics 20).totalBytesUploaded = 95 ∧
    ((regSessionC1.stop 20).2).totalBytesUploaded = 100 ∧
    (regSessionC1.getCurrentMetrics 20).totalBytesUploaded
      ≠ ((regSessionC1.stop 20).2).totalBytesUploaded := by
  refine ⟨by decide, by decide, by decide⟩

/-- Claim C1 (amended): for every registry session with at least one
recorded sample, the live query agrees with `Stop`'s aggregation on the
peak and minimum upload rates, and on the average upload rate whenever at
least one sample has a non-negative rate (otherwise `Stop` applies a
duration fallback the live query lacks); the live total bytes uploaded,
however, equals `Stop`'s total minus the `initialTxBytes` baseline a
second time, so the two totals agree only when the baseline is zero. -/
theorem registry_live_query_amended (rm : RegistryMonitor) (now t : ℚ)
    (hs : rm.samples ≠ []) :
    (rm.getCurrentMetrics now).peakUploadRateMB = ((rm.stop t).2).peakUploadRateMB ∧
    (rm.getCurrentMetrics now).minUploadRateMB = ((rm.stop t).2).minUploadRateMB ∧
    (0 < (rateLoopAcc (rm.samples.map (·.uploadRateMB))).validSamples →
      (rm.getCurrentMetrics now).averageUploadRateMB
        = ((rm.stop t).2).averageUploadRateMB) ∧
    (rm.getCurrentMetrics now).totalBytesUploaded
        = ((rm.stop t).2).totalBytesUploaded - rm.initialTxBytes := by
  rcases h : rm.samples.getLast? with _ | l
  · exact absurd (by simpa using h) hs
  · simp only [RegistryMonitor.getCurrentMetrics, RegistryMonitor.stop,
      RegistryMonitor.calculateMetrics, h]
    refine ⟨trivial, trivial, fun hv => ?_, trivial⟩
    rw [if_pos hv, if_pos hv]

/-- Claim C1 (witness): the amended theorem evaluated on the concrete
session `regSessionC1`. -/
theorem registry_live_query_amended_witness :
    (regSessionC1.getCurrentMetrics 20).peakUploadRateMB
        = ((regSessionC1.stop 20).2).peakUploadRateMB ∧
    (regSessionC1.getCurrentMetrics 20).minUploadRateMB
        = ((regSessionC1.stop 20).2).minUploadRateMB ∧
    (0 < (rateLoopAcc (regSessionC1.samples.map (·.uploadRateMB))).validSamples →
      (regSessionC1.getCurrentMetrics 20).averageUploadRateMB
        = ((regSessionC1.stop 20).2).averageUploadRateMB) ∧
    (regSessionC1.getCurrentMetrics 20).totalBytesUploaded
        = ((regSessionC1.stop 20).2).totalBytesUploaded - regSessionC1.initialTxBytes :=
  registry_live_query_amended regSessionC1 20 20 (by decide)

/-- Claim C2 (counterexample): a download session whose directory held 10
bytes at `Start` and only 4 bytes at the single tick (files were deleted)
reports `TotalBytesDownloaded = -6`, a negative value: the code reports the
true signed delta and never clamps. -/
theorem download_total_bytes_counterexample :
    (DownloadMonitor.runSession 10 0 [(1, 4, 1)] 2 4 1).totalBytesDownloaded = -6 ∧
    (DownloadMonitor.runSession 10 0 [(1, 4, 1)] 2 4 1).totalBytesDownloaded < 0 := by
  refine ⟨by decide, by decide⟩

/-- Claim C2 (amended): for every download session with at least one
recorded sample, `Stop` reports the true signed delta: the directory size
observed at the last tick minus the size captured at `Start`. The value
is negative whenever files are deleted below the baseline; the code does
not clamp. -/
theorem download_total_bytes_amended (initialBytes : ℤ) (startTime : ℚ)
    (obs : List (ℚ × ℤ × ℤ)) (stopTime : ℚ) (dirSize fileCount : ℤ)
    (t : ℚ) (size count : ℤ) (h : obs.getLast? = some (t, size, count)) :
    (DownloadMonitor.runSession initialBytes startTime obs stopTime
        dirSize fileCount).totalBytesDownloaded = size - initialBytes := by
  have hmap : (downloadBuildSamples initialBytes startTime obs).map (·.totalBytes)
      = obs.map (fun o => o.2.1 - initialBytes) :=
    downloadLoopAux_map_totalBytes initialBytes obs initialBytes startTime
  have h1 : ((downloadBuildSamples initialBytes startTime obs).getLast?).map (·.totalBytes)
      = some (size - initialBytes) := by
    rw [← List.getLast?_map, hmap, List.getLast?_map, h]
    rfl
  rcases hs : (downloadBuildSamples initialBytes startTime obs).getLast? with _ | lastS
  · rw [hs] at h1; exact absurd h1 (by simp)
  · rw [hs] at h1
    have hval : lastS.totalBytes = size - initialBytes := by
      simpa using h1
    simp only [DownloadMonitor.runSession, DownloadMonitor.calculateMetrics, hs]
    exact hval

/-- Claim C2 (witness): the amended theorem on a concrete growing
directory: baseline 0, last observed size 7. -/
theorem download_total_bytes_amended_witness :
    (DownloadMonitor.runSession 0 0 [(1, 7, 2)] 2 7 2).totalBytesDownloaded = 7 - 0 :=
  download_total_bytes_amended 0 0 [(1, 7, 2)] 2 7 2 1 7 2 (by decide)

/-- Claim C3 (counterexample): stopping a never-started resource monitor at
wall-clock instant 5 (measured from Go's zero `time.Time`) returns an
aggregate whose `Duration` is 5, the elapsed time since the zero time, not
zero: `Stop` stamps `stopTime = time.Now()` while `startTime` is still the
zero value, so the aggregate is not zero-valued in every field. -/
theorem stop_never_started_counterexample :
    ((ResourceMonitor.init.stop 5).2).duration = 5 ∧ ((5 : ℚ) ≠ 0) := by
  refine ⟨?_, by norm_num⟩
  simp [ResourceMonitor.stop, ResourceMonitor.calculateMetrics, ResourceMonitor.init]

/-- Claim C3 (amended): calling `Stop` on a never-started monitor never
produces an error (all five `Stop`s return plain aggregates by type).
The network monitor alone returns the literal zero aggregate. The
resource, registry and disk-write monitors return aggregates whose
sample-derived fields are zero but whose `Duration` equals the stop
instant minus the zero start time; the download monitor additionally
reports the target directory's current size (and file count) because its
baseline is still zero. -/
theorem stop_never_started_amended (t : ℚ) (dirSize fileCount : ℤ) :
    (NetworkMonitor.init.stop t).2 = NetworkMetrics.zero ∧
    ((ResourceMonitor.init.stop t).2).duration = t ∧
    ((ResourceMonitor.init.stop t).2).cpuAvgPercent = 0 ∧
    ((ResourceMonitor.init.stop t).2).cpuPeakPercent = 0 ∧
    ((ResourceMonitor.init.stop t).2).memoryAvgMB = 0 ∧
    ((ResourceMonitor.init.stop t).2).sampleCount = 0 ∧
    ((RegistryMonitor.init.stop t).2).duration = t ∧
    ((RegistryMonitor.init.stop t).2).totalBytesUploaded = 0 ∧
    ((RegistryMonitor.init.stop t).2).averageUploadRateMB = 0 ∧
    ((RegistryMonitor.init.stop t).2).peakUploadRateMB = 0 ∧
    ((DiskWriteMonitor.init.stop t).2).duration = t ∧
    ((DiskWriteMonitor.init.stop t).2).totalBytesWritten = 0 ∧
    ((DiskWriteMonitor.init.stop t).2).averageWriteRateMBs = 0 ∧
    ((DownloadMonitor.init.stop t dirSize fileCount).2).duration = t ∧
    ((DownloadMonitor.init.stop t dirSize fileCount).2).totalBytesDownloaded = dirSize ∧
    ((DownloadMonitor.init.stop t dirSize fileCount).2).totalFiles = fileCount := by
  refine ⟨?_, ?_, ?_, ?_, ?_, ?_, ?_, ?_, ?_, ?_, ?_, ?_, ?_, ?_, ?_, ?_⟩ <;>
    simp [NetworkMonitor.stop, NetworkMonitor.init, ResourceMonitor.stop,
      ResourceMonitor.init, ResourceMonitor.calculateMetrics,
      RegistryMonitor.stop, RegistryMonitor.init, RegistryMonitor.calculateMetrics,
      DiskWriteMonitor.stop, DiskWriteMonitor.init, DiskWriteMonitor.calculateMetrics,
      DownloadMonitor.stop, DownloadMonitor.init, DownloadMonitor.calculateMetrics]

/-- A started resource-monitor session with no samples yet, for the
double-`Stop` counterexample. -/
def resSessionC4 : ResourceMonitor :=
  { startTime := 0, stopTime := 0, monitoring := true, samples := [] }

/-- Claim C4 (counterexample): stopping the same session at instants 1 and
2 yields aggregates with durations 1 and 2: the second `Stop` re-stamps
`stopTime` with its own `time.Now()`, so the two aggregates are not equal
in every field. -/
theorem stop_twice_counterexample :
    ((resSessionC4.stop 1).2).duration = 1 ∧
    (((resSessionC4.stop 1).1.stop 2).2).duration = 2 ∧
    ((resSessionC4.stop 1).2).duration ≠ (((resSessionC4.stop 1).1.stop 2).2).duration := by
  have h1 : ((resSessionC4.stop 1).2).duration = 1 := by
    simp [resSessionC4, ResourceMonitor.stop, ResourceMonitor.calculateMetrics]
  have h2 : (((resSessionC4.stop 1).1.stop 2).2).duration = 2 := by
    simp [resSessionC4, ResourceMonitor.stop, ResourceMonitor.calculateMetrics]
  refine ⟨h1, h2, ?_⟩
  rw [h1, h2]
  norm_num

/-- Claim C4 (amended): a second `Stop` observes the unchanged sample
sequence, so every sample-derived aggregate field matches the first call
(for the download monitor, the average also matches whenever some sample
had a valid rate; on an empty sample sequence its duration fallback makes
the averages differ); but `Duration` is re-stamped — each call reports its
own stop instant minus the start time — so the two aggregates are equal
only when the two calls carry the same wall-clock instant. The network
monitor instead guards on the flag and returns the zero aggregate from the
second call. -/
theorem stop_twice_amended (s : ResourceMonitor) (d : DownloadMonitor)
    (n : NetworkMonitor) (t1 t2 : ℚ) (dirSize fileCount : ℤ) :
    ((((s.stop t1).1.stop t2).2).cpuAvgPercent = ((s.stop t1).2).cpuAvgPercent ∧
      (((s.stop t1).1.stop t2).2).cpuPeakPercent = ((s.stop t1).2).cpuPeakPercent ∧
      (((s.stop t1).1.stop t2).2).memoryAvgMB = ((s.stop t1).2).memoryAvgMB ∧
      (((s.stop t1).1.stop t2).2).memoryPeakMB = ((s.stop t1).2).memoryPeakMB ∧
      (((s.stop t1).1.stop t2).2).memoryPeakRSS = ((s.stop t1).2).memoryPeakRSS ∧
      (((s.stop t1).1.stop t2).2).avgGoroutines = ((s.stop t1).2).avgGoroutines ∧
      (((s.stop t1).1.stop t2).2).peakGoroutines = ((s.stop t1).2).peakGoroutines ∧
      (((s.stop t1).1.stop t2).2).avgThreads = ((s.stop t1).2).avgThreads ∧
      (((s.stop t1).1.stop t2).2).peakThreads = ((s.stop t1).2).peakThreads ∧
      (((s.stop t1).1.stop t2).2).sampleCount = ((s.stop t1).2).sampleCount ∧
      (((s.stop t1).1.stop t2).2).samples = ((s.stop t1).2).samples ∧
      ((s.stop t1).2).duration = t1 - s.startTime ∧
      (((s.stop t1).1.stop t2).2).duration = t2 - s.startTime) ∧
    ((((d.stop t1 dirSize fileCount).1.stop t2 dirSize fileCount).2).totalBytesDownloaded
        = ((d.stop t1 dirSize fileCount).2).totalBytesDownloaded ∧
      (((d.stop t1 dirSize fileCount).1.stop t2 dirSize fileCount).2).totalFiles
        = ((d.stop t1 dirSize fileCount).2).totalFiles ∧
      (((d.stop t1 dirSize fileCount).1.stop t2 dirSize fileCount).2).peakSpeedMBs
        = ((d.stop t1 dirSize fileCount).2).peakSpeedMBs ∧
      (((d.stop t1 dirSize fileCount).1.stop t2 dirSize fileCount).2).minSpeedMBs
        = ((d.stop t1 dirSize fileCount).2).minSpeedMBs ∧
      (((d.stop t1 dirSize fileCount).1.stop t2 dirSize fileCount).2).samples
        = ((d.stop t1 dirSize fileCount).2).samples ∧
      (0 < (rateLoopAcc (d.samples.map (·.downloadRateMB))).validSamples →
        (((d.stop t1 dirSize fileCount).1.stop t2 dirSize fileCount).2).averageSpeedMBs
          = ((d.stop t1 dirSize fileCount).2).averageSpeedMBs) ∧
      ((d.stop t1 dirSize fileCount).2).duration = t1 - d.startTime ∧
      (((d.stop t1 dirSize fileCount).1.stop t2 dirSize fileCount).2).duration
        = t2 - d.startTime) ∧
    (((n.stop t1).1.stop t2).2) = NetworkMetrics.zero := by
  refine ⟨?_, ?_, ?_⟩
  · by_cases he : s.samples.isEmpty <;>
      simp [ResourceMonitor.stop, ResourceMonitor.calculateMetrics, he]
  · rcases hd : d.samples.getLast? with _ | lastS
    · have hnil : d.samples = [] := by simpa using hd
      simp only [DownloadMonitor.stop, DownloadMonitor.calculateMetrics, hd]
      refine ⟨trivial, trivial, trivial, trivial, trivial, fun hv => ?_, trivial, trivial⟩
      simp [hnil, rateLoopAcc] at hv
    · simp only [DownloadMonitor.stop, DownloadMonitor.calculateMetrics, hd]
      refine ⟨trivial, trivial, trivial, trivial, trivial, fun hv => ?_, trivial, trivial⟩
      rw [if_pos hv, if_pos hv]
  · rcases hn : n.monitoring <;> simp [NetworkMonitor.stop, hn]

/-- Claim C4 (witness): the amended theorem on concrete sessions. -/
theorem stop_twice_amended_witness :
    ((((resSessionC4.stop 1).1.stop 2).2).cpuAvgPercent
        = ((resSessionC4.stop 1).2).cpuAvgPercent ∧
      (((resSessionC4.stop 1).1.stop 2).2).cpuPeakPercent
        = ((resSessionC4.stop 1).2).cpuPeakPercent ∧
      (((resSessionC4.stop 1).1.stop 2).2).memoryAvgMB
        = ((resSessionC4.stop 1).2).memoryAvgMB ∧
      (((resSessionC4.stop 1).1.stop 2).2).memoryPeakMB
        = ((resSessionC4.stop 1).2).memoryPeakMB ∧
      (((resSessionC4.stop 1).1.stop 2).2).memoryPeakRSS
        = ((resSessionC4.stop 1).2).memoryPeakRSS ∧
      (((resSessionC4.stop 1).1.stop 2).2).avgGoroutines
        = ((resSessionC4.stop 1).2).avgGoroutines ∧
      (((resSessionC4.stop 1).1.stop 2).2).peakGoroutines
        = ((resSessionC4.stop 1).2).peakGoroutines ∧
      (((resSessionC4.stop 1).1.stop 2).2).avgThreads
        = ((resSessionC4.stop 1).2).avgThreads ∧
      (((resSessionC4.stop 1).1.stop 2).2).peakThreads
        = ((resSessionC4.stop 1).2).peakThreads ∧
      (((resSessionC4.stop 1).1.stop 2).2).sampleCount
        = ((resSessionC4.stop 1).2).sampleCount ∧
      (((resSessionC4.stop 1).1.stop 2).2).samples
        = ((resSessionC4.stop 1).2).samples ∧
      ((resSessionC4.stop 1).2).duration = 1 - resSessionC4.startTime ∧
      (((resSessionC4.stop 1).1.stop 2).2).duration = 2 - resSessionC4.startTime) ∧
    ((((DownloadMonitor.init.stop 1 7 3).1.stop 2 7 3).2).totalBytesDownloaded
        = ((DownloadMonitor.init.stop 1 7 3).2).totalBytesDownloaded ∧
      (((DownloadMonitor.init.stop 1 7 3).1.stop 2 7 3).2).totalFiles
        = ((DownloadMonitor.init.stop 1 7 3).2).totalFiles ∧
      (((DownloadMonitor.init.stop 1 7 3).1.stop 2 7 3).2).peakSpeedMBs
        = ((DownloadMonitor.init.stop 1 7 3).2).peakSpeedMBs ∧
      (((DownloadMonitor.init.stop 1 7 3).1.stop 2 7 3).2).minSpeedMBs
        = ((DownloadMonitor.init.stop 1 7 3).2).minSpeedMBs ∧
      (((DownloadMonitor.init.stop 1 7 3).1.stop 2 7 3).2).samples
        = ((DownloadMonitor.init.stop 1 7 3).2).samples ∧
      (0 < (rateLoopAcc (DownloadMonitor.init.samples.map (·.downloadRateMB))).validSamples →
        (((DownloadMonitor.init.stop 1 7 3).1.stop 2 7 3).2).averageSpeedMBs
          = ((DownloadMonitor.init.stop 1 7 3).2).averageSpeedMBs) ∧
      ((DownloadMonitor.init.stop 1 7 3).2).duration = 1 - DownloadMonitor.init.startTime ∧
      (((DownloadMonitor.init.stop 1 7 3).1.stop 2 7 3).2).duration
        = 2 - DownloadMonitor.init.startTime) ∧
    (((NetworkMonitor.init.stop 1).1.stop 2).2) = NetworkMetrics.zero :=
  stop_twice_amended resSessionC4 DownloadMonitor.init NetworkMonitor.init 1 2 7 3

/-- Modelled from the spec: the duration-based fallback rate
`(finalValue - initialValue) / duration` (normalised to MB/s) that the
claim asserts every monitor computes when the sample sequence is empty. -/
def specDurationFallbackRateMB (finalValue initialValue : ℤ) (duration : ℚ) : ℚ :=
  ((finalValue - initialValue : ℤ) : ℚ) / duration / (1024 * 1024)

/-- A download session stopped after 2 seconds with no recorded samples. -/
def dlSessionC5 : DownloadMonitor :=
  { startTime := 0, stopTime := 2, monitoring := false, samples := [], initialBytes := 0 }

/-- A registry session stopped after 10 seconds with no recorded samples. -/
def regSessionC5 : RegistryMonitor :=
  { startTime := 0, stopTime := 10, monitoring := false, samples := [], initialTxBytes := 0 }

/-- Claim C5 (counterexample): a registry session stopped with an empty
sample sequence returns a zero average upload rate with no fallback
computation at all: `calculateMetrics` returns early before its fallback
branch, and never reads the interface counter at stop time. Had the
interface counter advanced 10 MiB over the 10-second session, the claimed
fallback `(finalValue - initialValue)/duration` would be 1 MB/s, not the 0
the code returns. -/
theorem empty_samples_fallback_counterexample :
    regSessionC5.calculateMetrics.averageUploadRateMB = 0 ∧
    specDurationFallbackRateMB 10485760 0 10 = 1 ∧
    regSessionC5.calculateMetrics.averageUploadRateMB
      ≠ specDurationFallbackRateMB 10485760 0 10 := by
  have h1 : regSessionC5.calculateMetrics.averageUploadRateMB = 0 := by
    simp [regSessionC5, RegistryMonitor.calculateMetrics]
  have h2 : specDurationFallbackRateMB 10485760 0 10 = 1 := by
    norm_num [specDurationFallbackRateMB]
  refine ⟨h1, h2, ?_⟩
  rw [h1, h2]
  norm_num

/-- Claim C5 (amended): on an empty sample sequence only the download
monitor computes the duration-based fallback
`(finalDirectorySize - initialBytes)/duration` for its average rate (zero
when the duration is not positive); the registry, resource, disk-write and
network monitors return zero rate fields with no fallback (their fallback
branches require at least one sample). In every case the rate fields are
plain zeros or the fallback value — no division by the zero sample count
is performed. -/
theorem empty_samples_fallback_amended
    (r : RegistryMonitor) (hr : r.samples = [])
    (s : ResourceMonitor) (hs : s.samples = [])
    (w : DiskWriteMonitor) (hw : w.samples = [])
    (n : NetworkMonitor) (hn : n.samples = [])
    (d : DownloadMonitor) (hd : d.samples = []) (dirSize fileCount : ℤ) :
    (r.calculateMetrics.averageUploadRateMB = 0 ∧
      r.calculateMetrics.peakUploadRateMB = 0 ∧
      r.calculateMetrics.minUploadRateMB = 0) ∧
    (s.calculateMetrics.cpuAvgPercent = 0 ∧ s.calculateMetrics.cpuPeakPercent = 0) ∧
    (w.calculateMetrics.averageWriteRateMBs = 0 ∧
      w.calculateMetrics.peakWriteRateMBs = 0) ∧
    (n.calculateMetrics.averageBandwidthMbps = 0 ∧
      n.calculateMetrics.peakBandwidthMbps = 0) ∧
    ((0 < d.stopTime - d.startTime →
        (d.calculateMetrics dirSize fileCount).averageSpeedMBs
          = specDurationFallbackRateMB dirSize d.initialBytes (d.stopTime - d.startTime)) ∧
      (d.calculateMetrics dirSize fileCount).peakSpeedMBs = 0 ∧
      (d.calculateMetrics dirSize fileCount).minSpeedMBs = 0) := by
  refine ⟨?_, ?_, ?_, ?_, ?_⟩
  · simp [RegistryMonitor.calculateMetrics, hr]
  · simp [ResourceMonitor.calculateMetrics, hs]
  · simp [DiskWriteMonitor.calculateMetrics, hw]
  · simp [NetworkMonitor.calculateMetrics, hn, NetworkMetrics.zero]
  · refine ⟨fun hdur => ?_, ?_, ?_⟩
    · simp only [DownloadMonitor.calculateMetrics, hd, List.getLast?_nil]
      rw [if_pos hdur]
      rfl
    · simp [DownloadMonitor.calculateMetrics, hd]
    · simp [DownloadMonitor.calculateMetrics, hd]

/-- Claim C5 (witness): the amended theorem on concrete never-sampled
sessions, with a download session of positive duration. -/
theorem empty_samples_fallback_amended_witness :
    (regSessionC5.calculateMetrics.averageUploadRateMB = 0 ∧
      regSessionC5.calculateMetrics.peakUploadRateMB = 0 ∧
      regSessionC5.calculateMetrics.minUploadRateMB = 0) ∧
    (ResourceMonitor.init.calculateMetrics.cpuAvgPercent = 0 ∧
      ResourceMonitor.init.calculateMetrics.cpuPeakPercent = 0) ∧
    (DiskWriteMonitor.init.calculateMetrics.averageWriteRateMBs = 0 ∧
      DiskWriteMonitor.init.calculateMetrics.peakWriteRateMBs = 0) ∧
    (NetworkMonitor.init.calculateMetrics.averageBandwidthMbps = 0 ∧
      NetworkMonitor.init.calculateMetrics.peakBandwidthMbps = 0) ∧
    ((0 < dlSessionC5.stopTime - dlSessionC5.startTime →
        (dlSessionC5.calculateMetrics 2097152 4).averageSpeedMBs
          = specDurationFallbackRateMB 2097152 dlSessionC5.initialBytes
              (dlSessionC5.stopTime - dlSessionC5.startTime)) ∧
      (dlSessionC5.calculateMetrics 2097152 4).peakSpeedMBs = 0 ∧
      (dlSessionC5.calculateMetrics 2097152 4).minSpeedMBs = 0) :=
  empty_samples_fallback_amended regSessionC5 rfl ResourceMonitor.init rfl
    DiskWriteMonitor.init rfl NetworkMonitor.init rfl dlSessionC5 rfl 2097152 4

/-- Per-phase metrics of the runner (`PhaseMetrics` in the runner package):
`wallTime` is a Go `time.Duration`, i.e. an `int64` nanosecond count. -/
structure PhaseMetrics where
  wallTime : ℤ
  bytesUploaded : ℤ
  logs : List String
  imagesSkipped : ℤ
  cacheHits : ℤ
  deriving Repr, DecidableEq

/-- One iteration's record (`TestResult` in the runner package). -/
structure TestResult where
  iteration : ℤ
  isCleanRun : Bool
  version : String
  downloadPhase : PhaseMetrics
  uploadPhase : PhaseMetrics
  networkMetrics : NetworkMetrics
  summary : String
  deriving Repr, DecidableEq

/-- The values `compareCleanVsCached` (part_005 lines 433-495) prints:
absolute clean and cached figures for the four metrics, and the
percentage-improvement lines, which exist only for the download and upload
times and only when the corresponding cached average is positive
(`Option.none` models the absent line). -/
structure CleanCachedReport where
  cleanDownloadTime : ℤ
  avgCachedDownloadTime : ℤ
  downloadImprovement : Option ℚ
  cleanUploadTime : ℤ
  avgCachedUploadTime : ℤ
  uploadImprovement : Option ℚ
  cleanCacheHits : ℤ
  avgCachedCacheHits : ℤ
  cleanBytes : ℤ
  avgCachedBytes : ℤ
  deriving Repr, DecidableEq

/-- `(*TestRunner).compareCleanVsCached`: element 0 is the clean baseline,
the remaining elements are summed and divided by their count with Go's
truncating integer division (`time.Duration`, `int64` and `int` division
all truncate toward zero); fewer than 2 results is a silent no-op. -/
def compareCleanVsCached (results : List TestResult) : Option CleanCachedReport :=
  if results.length < 2 then none
  else
    match results with
    | [] => none
    | cleanResult :: cachedResults =>
      let n : ℤ := cachedResults.length
      let sumDownload := cachedResults.foldl (fun a r => a + r.downloadPhase.wallTime) 0
      let sumUpload := cachedResults.foldl (fun a r => a + r.uploadPhase.wallTime) 0
      let sumBytes := cachedResults.foldl (fun a r => a + r.uploadPhase.bytesUploaded) 0
      let sumHits := cachedResults.foldl (fun a r => a + r.downloadPhase.cacheHits) 0
      let avgDownload := if 0 < cachedResults.length then Int.tdiv sumDownload n else sumDownload
      let avgUpload := if 0 < cachedResults.length then Int.tdiv sumUpload n else sumUpload
      let avgBytes := if 0 < cachedResults.length then Int.tdiv sumBytes n else sumBytes
      let avgHits := if 0 < cachedResults.length then Int.tdiv sumHits n else sumHits
      some
        { cleanDownloadTime := cleanResult.downloadPhase.wallTime
          avgCachedDownloadTime := avgDownload
          downloadImprovement :=
            if 0 < avgDownload then
              some ((((cleanResult.downloadPhase.wallTime - avgDownload : ℤ) : ℚ)
                / ((cleanResult.downloadPhase.wallTime : ℤ) : ℚ)) * 100)
            else none
          cleanUploadTime := cleanResult.uploadPhase.wallTime
          avgCachedUploadTime := avgUpload
          uploadImprovement :=
            if 0 < avgUpload then
              some ((((cleanResult.uploadPhase.wallTime - avgUpload : ℤ) : ℚ)
                / ((cleanResult.uploadPhase.wallTime : ℤ) : ℚ)) * 100)
            else none
          cleanCacheHits := cleanResult.downloadPhase.cacheHits
          avgCachedCacheHits := avgHits
          cleanBytes := cleanResult.uploadPhase.bytesUploaded
          avgCachedBytes := avgBytes }

/-- A `TestResult` whose numeric fields are all zero. -/
def zeroTestResult : TestResult :=
  { iteration := 1, isCleanRun := true, version := "v2"
    downloadPhase := { wallTime := 0, bytesUploaded := 0, logs := [], imagesSkipped := 0, cacheHits := 0 }
    uploadPhase := { wallTime := 0, bytesUploaded := 0, logs := [], imagesSkipped := 0, cacheHits := 0 }
    networkMetrics := NetworkMetrics.zero
    summary := "" }

/-- Claim C8 (counterexample): with exactly 2 results that are numerically
equal but whose wall times are zero, the comparison prints no improvement
line at all for download or upload time (the `avgCached > 0` guard fails),
rather than reporting 0%; and no improvement line exists for bytes
uploaded or cache hits in any case. -/
theorem compare_clean_cached_counterexample :
    (compareCleanVsCached [zeroTestResult, zeroTestResult]).map (·.downloadImprovement)
        = some none ∧
    (compareCleanVsCached [zeroTestResult, zeroTestResult]).map (·.uploadImprovement)
        = some none := by
  refine ⟨rfl, rfl⟩

/-- Folding `acc + f r` over a list equals the starting value plus the sum
of the mapped list (the shape of the averaging loops in
`compareCleanVsCached`). -/
theorem foldl_add_map {α : Type} (f : α → ℤ) :
    ∀ (l : List α) (a : ℤ), l.foldl (fun acc r => acc + f r) a = a + (l.map f).sum
  | [], a => by simp
  | x :: xs, a => by
    simp only [List.foldl_cons, List.map_cons, List.sum_cons]
    rw [foldl_add_map f xs (a + f x)]
    ring

/-- Claim C8 (amended): `compareCleanVsCached` is a silent no-op on fewer
than 2 results; otherwise it treats element 0 as the clean baseline and
uses the truncating integer mean of all remaining elements as the cached
figure for download time, upload time, bytes uploaded and cache hits; it
reports a percentage improvement `(clean-cached)/clean*100` only for the
download and upload times, and only when the cached average is positive —
in particular, with exactly 2 results whose values are equal and whose
wall times are positive it reports 0% improvement; bytes uploaded and
cache hits get absolute values only, never an improvement line. -/
theorem compare_clean_cached_amended :
    (∀ results : List TestResult, results.length < 2 → compareCleanVsCached results = none) ∧
    (∀ (clean : TestResult) (rest : List TestResult), rest ≠ [] →
      (compareCleanVsCached (clean :: rest)).map (·.avgCachedDownloadTime)
          = some (Int.tdiv ((rest.map (fun r => r.downloadPhase.wallTime)).sum : ℤ)
              (rest.length : ℤ)) ∧
      (compareCleanVsCached (clean :: rest)).map (·.avgCachedBytes)
          = some (Int.tdiv ((rest.map (fun r => r.uploadPhase.bytesUploaded)).sum : ℤ)
              (rest.length : ℤ)) ∧
      (compareCleanVsCached (clean :: rest)).map (·.cleanDownloadTime)
          = some clean.downloadPhase.wallTime ∧
      (compareCleanVsCached (clean :: rest)).map (·.cleanBytes)
          = some clean.uploadPhase.bytesUploaded) ∧
    (∀ clean cached : TestResult,
      clean.downloadPhase.wallTime = cached.downloadPhase.wallTime →
      0 < cached.downloadPhase.wallTime →
      (compareCleanVsCached [clean, cached]).map (·.downloadImprovement) = some (some 0)) ∧
    (∀ clean cached : TestResult,
      clean.uploadPhase.wallTime = cached.uploadPhase.wallTime →
      0 < cached.uploadPhase.wallTime →
      (compareCleanVsCached [clean, cached]).map (·.uploadImprovement) = some (some 0)) := by
  refine ⟨?_, ?_, ?_, ?_⟩
  · intro results h
    simp [compareCleanVsCached, h]
  · intro clean rest hne
    have hlen : ¬ (clean :: rest).length < 2 := by
      cases rest with
      | nil => exact absurd rfl hne
      | cons b bs => simp [Nat.succ_lt_succ_iff]
    have hpos : 0 < rest.length := List.length_pos.mpr hne
    simp only [compareCleanVsCached, if_neg hlen, Option.map_some]
    refine ⟨?_, ?_, rfl, rfl⟩ <;>
      simp [foldl_add_map, if_pos hpos]
  · intro clean cached heq hposval
    have hlen : ¬ ([clean, cached] : List TestResult).length < 2 := by simp
    unfold compareCleanVsCached
    rw [if_neg hlen]
    simp only [List.foldl_cons, List.foldl_nil, List.length_cons, List.length_nil,
      zero_add, Int.tdiv_one]
    norm_num
    exact ⟨hposval, Or.inl (by rw [heq, sub_self])⟩
  · intro clean cached heq hposval
    have hlen : ¬ ([clean, cached] : List TestResult).length < 2 := by simp
    unfold compareCleanVsCached
    rw [if_neg hlen]
    simp only [List.foldl_cons, List.foldl_nil, List.length_cons, List.length_nil,
      zero_add, Int.tdiv_one]
    norm_num
    exact ⟨hposval, Or.inl (by rw [heq, sub_self])⟩

/-- A `TestResult` with positive wall times for the comparison witness. -/
def posTestResult : TestResult :=
  { iteration := 2, isCleanRun := false, version := "v2"
    downloadPhase := { wallTime := 5, bytesUploaded := 0, logs := [], imagesSkipped := 0, cacheHits := 3 }
    uploadPhase := { wallTime := 7, bytesUploaded := 9, logs := [], imagesSkipped := 0, cacheHits := 1 }
    networkMetrics := NetworkMetrics.zero
    summary := "" }

/-- Claim C8 (witness): the amended theorem at concrete inputs — a
single-element list is a no-op, and two equal results with positive wall
times report 0% improvement for both phases. -/
theorem compare_clean_cached_amended_witness :
    compareCleanVsCached [posTestResult] = none ∧
    (compareCleanVsCached [posTestResult, posTestResult]).map (·.downloadImprovement)
        = some (some 0) ∧
    (compareCleanVsCached [posTestResult, posTestResult]).map (·.uploadImprovement)
        = some (some 0) :=
  ⟨compare_clean_cached_amended.1 [posTestResult] (by decide),
   compare_clean_cached_amended.2.2.1 posTestResult posTestResult rfl (by decide),
   compare_clean_cached_amended.2.2.2 posTestResult posTestResult rfl (by decide)⟩

/-- The iteration loop of `runStandardTest` (part_005 lines 71-87): each
entry of `outcomes` is what `runIteration` returned for that iteration;
the loop aborts at the first error, wrapping it, and otherwise accumulates
the results in order. -/
def runIterationsList : List (Except String TestResult) → Except String (List TestResult)
  | [] => Except.ok []
  | Except.error e :: _ => Except.error ("iteration failed: " ++ e)
  | Except.ok r :: rest =>
    match runIterationsList rest with
    | Except.error e => Except.error e
    | Except.ok rs => Except.ok (r :: rs)

/-- `(*TestRunner).runStandardTest` (part_005 lines 71-97) after the
iteration loop: the clean-vs-cached comparison only prints (it cannot
fail), then `saveResults` is always attempted and its failure is wrapped
as the run's error; on success the collected results stand. -/
def runStandardTest (outcomes : List (Except String TestResult))
    (saveOutcome : Except String Unit) : Except String (List TestResult) :=
  match runIterationsList outcomes with
  | Except.error e => Except.error e
  | Except.ok results =>
    let _report := compareCleanVsCached results
    match saveOutcome with
    | Except.error e => Except.error ("failed to save results: " ++ e)
    | Except.ok _ => Except.ok results

/-- When every iteration outcome is a success, the iteration loop succeeds
with the collected results. -/
theorem runIterationsList_ok :
    ∀ outcomes : List (Except String TestResult),
      (∀ o ∈ outcomes, ∃ r, o = Except.ok r) →
      ∃ rs, runIterationsList outcomes = Except.ok rs
  | [], _ => ⟨[], rfl⟩
  | o :: rest, h => by
    obtain ⟨r, hr⟩ := h o (by simp)
    obtain ⟨rs, hrs⟩ := runIterationsList_ok rest (fun x hx => h x (by simp [hx]))
    subst hr
    exact ⟨r :: rs, by simp [runIterationsList, hrs]⟩

/-- Claim C9: in a run where every iteration succeeds, the only error the
run can report is a save failure — saving is always attempted (the
comparison step cannot fail and is always passed through), a save error is
wrapped and returned, and a successful save yields success. -/
theorem run_save_only_error (outcomes : List (Except String TestResult))
    (h : ∀ o ∈ outcomes, ∃ r, o = Except.ok r) :
    (∀ e, runStandardTest outcomes (Except.error e)
        = Except.error ("failed to save results: " ++ e)) ∧
    (∃ rs, runStandardTest outcomes (Except.ok ()) = Except.ok rs) := by
  obtain ⟨rs, hrs⟩ := runIterationsList_ok outcomes h
  constructor
  · intro e
    simp [runStandardTest, hrs]
  · exact ⟨rs, by simp [runStandardTest, hrs]⟩

/-- Claim C9 (witness): a run with one successful iteration reports the
save failure as its only error, and succeeds when saving succeeds. -/
theorem run_save_only_error_witness :
    (∀ e, runStandardTest [Except.ok zeroTestResult] (Except.error e)
        = Except.error ("failed to save results: " ++ e)) ∧
    (∃ rs, runStandardTest [Except.ok zeroTestResult] (Except.ok ())
        = Except.ok rs) :=
  run_save_only_error [Except.ok zeroTestResult]
    (by intro o ho; exact ⟨zeroTestResult, by simpa using ho⟩)

/-- The monitor operations of the success path of `runIteration`
(part_005 lines 195-250), in statement order. -/
inductive IterEvent where
  | startDownloadNetMonitor
  | runDownloadPhase
  | prepareUploadMirror
  | startUploadNetMonitor
  | stopDownloadNetMonitor
  | runUploadPhase
  | stopUploadNetMonitor
  | combineNetworkMetrics
  deriving Repr, DecidableEq

/-- The order in which `runIteration`'s success path performs its steps,
read directly off the statement order of part_005 lines 195-250: the
upload-phase network monitor is started (line 219) before the
download-phase network monitor is stopped (line 224). -/
def runIterationTrace : List IterEvent :=
  [IterEvent.startDownloadNetMonitor, IterEvent.runDownloadPhase,
   IterEvent.prepareUploadMirror, IterEvent.startUploadNetMonitor,
   IterEvent.stopDownloadNetMonitor, IterEvent.runUploadPhase,
   IterEvent.stopUploadNetMonitor, IterEvent.combineNetworkMetrics]

/-- The `TestResult` assembled by the success path of `runIteration`
(part_005 lines 181-249): the download-phase network session's metrics are
stored first, then the upload-phase session's metrics are folded in by the
combination statements of lines 240-244. -/
def runIterationResult (iterationNum : ℤ) (isCleanRun : Bool) (version : String)
    (dlPhase ulPhase : PhaseMetrics) (dlNet ulNet : NetworkMetrics)
    (summary : String) : TestResult :=
  { iteration := iterationNum
    isCleanRun := isCleanRun
    version := version
    downloadPhase := dlPhase
    uploadPhase := ulPhase
    networkMetrics :=
      { dlNet with
        totalBytesTransferred := dlNet.totalBytesTransferred + ulNet.totalBytesTransferred
        peakBandwidthMbps :=
          if dlNet.peakBandwidthMbps < ulNet.peakBandwidthMbps then ulNet.peakBandwidthMbps
          else dlNet.peakBandwidthMbps
        averageBandwidthMbps :=
          (dlNet.averageBandwidthMbps + ulNet.averageBandwidthMbps) / 2 }
    summary := summary }

/-- Claim C10: each iteration runs two separate network-monitor sessions,
one per phase — the upload-phase session is started before the
download-phase session is stopped — and the recorded network metrics
combine the two sessions by summing total bytes transferred, taking the
maximum of the peak bandwidths, and taking the plain unweighted mean of
the two average bandwidths. -/
theorem iteration_network_sessions (iterationNum : ℤ) (isCleanRun : Bool)
    (version : String) (dlPhase ulPhase : PhaseMetrics)
    (dlNet ulNet : NetworkMetrics) (summary : String) :
    (runIterationResult iterationNum isCleanRun version dlPhase ulPhase dlNet ulNet
        summary).networkMetrics.totalBytesTransferred
      = dlNet.totalBytesTransferred + ulNet.totalBytesTransferred ∧
    (runIterationResult iterationNum isCleanRun version dlPhase ulPhase dlNet ulNet
        summary).networkMetrics.peakBandwidthMbps
      = max dlNet.peakBandwidthMbps ulNet.peakBandwidthMbps ∧
    (runIterationResult iterationNum isCleanRun version dlPhase ulPhase dlNet ulNet
        summary).networkMetrics.averageBandwidthMbps
      = (dlNet.averageBandwidthMbps + ulNet.averageBandwidthMbps) / 2 ∧
    runIterationTrace.indexOf IterEvent.startUploadNetMonitor
      < runIterationTrace.indexOf IterEvent.stopDownloadNetMonitor := by
  refine ⟨rfl, ?_, rfl, by decide⟩
  show (if dlNet.peakBandwidthMbps < ulNet.peakBandwidthMbps then ulNet.peakBandwidthMbps
      else dlNet.peakBandwidthMbps) = max dlNet.peakBandwidthMbps ulNet.peakBandwidthMbps
  rcases le_or_lt ulNet.peakBandwidthMbps dlNet.peakBandwidthMbps with hle | hlt
  · rw [if_neg (not_lt.mpr hle), max_eq_left hle]
  · rw [if_pos hlt, max_eq_right hlt.le]

/-- Go's `\s` character class in the regexp package: `[\t\n\f\r ]`. -/
def isSpaceGo (c : Char) : Bool :=
  c = ' ' || c = '\t' || c = '\n' || c = '\r' || c.toNat = 12

/-- Strip a literal (already lower-cased) off the front of the input,
returning the remainder on success. -/
def stripLit : List Char → List Char → Option (List Char)
  | [], cs => some cs
  | _ :: _, [] => none
  | p :: ps, c :: cs => if p = c then stripLit ps cs else none

/-- Is `sub` a contiguous substring of `cs` (`strings.Contains`)? -/
def containsSub (sub : List Char) : List Char → Bool
  | [] => (stripLit sub []).isSome
  | c :: rest => (stripLit sub (c :: rest)).isSome || containsSub sub rest

/-- Value of a digit run, as `fmt.Sscanf(%d)` reads it (the leading
integer part only). -/
def digitsVal (ds : List Char) : ℤ :=
  ds.foldl (fun a c => a * 10 + ((c.toNat : ℤ) - 48)) 0

/-- After `(?:bytes|b)` the continuation `k` runs on the remainder; the
`bytes` branch is preferred, with backtracking into the `b` branch exactly
as a leftmost-first regexp engine would. -/
def unitBytesBThen (k : List Char → Bool) (cs : List Char) : Bool :=
  (match stripLit "bytes".toList cs with
    | some r => k r
    | none => false) ||
  (match stripLit "b".toList cs with
    | some r => k r
    | none => false)

/-- The tail `\s*(?:uploaded|transferred|sent)` of the first extraction
pattern. -/
def keywordAfterUnit (cs : List Char) : Bool :=
  let r := cs.dropWhile isSpaceGo
  (stripLit "uploaded".toList r).isSome || (stripLit "transferred".toList r).isSome ||
    (stripLit "sent".toList r).isSome

/-- Pattern `(?i)(\d+)\s*(?:bytes|B)\s*(?:uploaded|transferred|sent)`
anchored at the start of `cs` (the input is pre-lower-cased); returns the
captured integer. Digit runs never backtrack because no continuation
starts with a digit. -/
def p1MatchAt (cs : List Char) : Option ℤ :=
  let (ds, r) := cs.span Char.isDigit
  if ds.isEmpty then none
  else if unitBytesBThen keywordAfterUnit (r.dropWhile isSpaceGo) then some (digitsVal ds)
  else none

/-- The tail `(\d+)\s*(?:bytes|B)` anchored at the start of `cs`. -/
def digitsThenUnit (cs : List Char) : Option ℤ :=
  let (ds, r) := cs.span Char.isDigit
  if ds.isEmpty then none
  else if unitBytesBThen (fun _ => true) (r.dropWhile isSpaceGo) then some (digitsVal ds)
  else none

/-- The lazy `.*?(\d+)\s*(?:bytes|B)` scan: try the capture at each
position left to right, as the lazy quantifier does. -/
def lazyScanDigits : List Char → Option ℤ
  | [] => none
  | c :: rest =>
    match digitsThenUnit (c :: rest) with
    | some v => some v
    | none => lazyScanDigits rest

/-- Pattern `(?i)uploaded.*?(\d+)\s*(?:bytes|B)` anchored at the start. -/
def p2MatchAt (cs : List Char) : Option ℤ :=
  match stripLit "uploaded".toList cs with
  | some r => lazyScanDigits r
  | none => none

/-- Pattern `(?i)transferred.*?(\d+)\s*(?:bytes|B)` anchored at the
start. -/
def p4MatchAt (cs : List Char) : Option ℤ :=
  match stripLit "transferred".toList cs with
  | some r => lazyScanDigits r
  | none => none

/-- The tail `\s*(?:MB|GB|KB)` (lower-cased input). -/
def unitMGK (cs : List Char) : Bool :=
  let r := cs.dropWhile isSpaceGo
  (stripLit "mb".toList r).isSome || (stripLit "gb".toList r).isSome ||
    (stripLit "kb".toList r).isSome

/-- Pattern `(?i)(\d+(?:\.\d+)?)\s*(?:MB|GB|KB)` anchored at the start;
the captured value is what `Sscanf(%d)` reads from the capture, i.e.
the integer part (the greedy optional fraction is consumed but not
parsed). -/
def p3MatchAt (cs : List Char) : Option ℤ :=
  let (ds, r) := cs.span Char.isDigit
  if ds.isEmpty then none
  else
    let fracCase : Bool :=
      match r with
      | '.' :: r1 =>
        let (fs, r2) := r1.span Char.isDigit
        !fs.isEmpty && unitMGK r2
      | _ => false
    if fracCase || unitMGK r then some (digitsVal ds) else none

/-- Leftmost match: try the anchored matcher at every position, left to
right (`regexp.FindStringSubmatch`). -/
def findFirstMatch {α : Type} (m : List Char → Option α) : List Char → Option α
  | [] => m []
  | c :: rest =>
    match m (c :: rest) with
    | some v => some v
    | none => findFirstMatch m rest

/-- The unit conversion of `ExtractBytesUploaded` (oc_mirror.go lines
249-255): the factor is chosen by substring search over the whole
lower-cased line, testing `mb` before `gb` before `kb`. -/
def convertByLineUnits (line : List Char) (n : ℤ) : ℤ :=
  if containsSub "mb".toList line then n * (1024 * 1024)
  else if containsSub "gb".toList line then n * (1024 * 1024 * 1024)
  else if containsSub "kb".toList line then n * 1024
  else n

/-- All candidate byte counts one line contributes: each of the four
patterns is tried in order, and every match is normalised with the
line-wide unit factor. -/
def lineCandidates (line : List Char) : List ℤ :=
  ([findFirstMatch p1MatchAt line, findFirstMatch p2MatchAt line,
    findFirstMatch p3MatchAt line, findFirstMatch p4MatchAt line].filterMap id).map
    (convertByLineUnits line)

/-- Lower-case a line the way the Go code's `(?i)` patterns and
`strings.ToLower` comparisons see it. -/
def lowerLine (s : String) : List Char :=
  s.data.map Char.toLower

/-- The size-annotation units of `estimateBytesFromLogs`'s pattern
`(MB|GB|KB|bytes?)`. -/
inductive SizeUnit where
  | mb
  | gb
  | kb
  | bytesWord
  deriving Repr, DecidableEq

/-- The unit alternation `(MB|GB|KB|bytes?)` anchored at the start, in
regexp preference order (`bytes` before `byte`). -/
def sizeUnitAt (cs : List Char) : Option SizeUnit :=
  match stripLit "mb".toList cs with
  | some _ => some SizeUnit.mb
  | none =>
    match stripLit "gb".toList cs with
    | some _ => some SizeUnit.gb
    | none =>
      match stripLit "kb".toList cs with
      | some _ => some SizeUnit.kb
      | none =>
        match stripLit "bytes".toList cs with
        | some _ => some SizeUnit.bytesWord
        | none =>
          match stripLit "byte".toList cs with
          | some _ => some SizeUnit.bytesWord
          | none => none

/-- The `[:\s]` class of the size pattern. -/
def colonOrSpace (c : Char) : Bool :=
  c = ':' || isSpaceGo c

/-- Pattern `(?i)size[:\s]+(\d+(?:\.\d+)?)\s*(MB|GB|KB|bytes?)` anchored
at the start; returns the captured integer digits, fraction digits (empty
when absent) and unit. The greedy optional fraction is tried first, with
backtracking to the fraction-less branch. -/
def sizeMatchAt (cs : List Char) : Option (List Char × List Char × SizeUnit) :=
  match stripLit "size".toList cs with
  | none => none
  | some r =>
    match r with
    | [] => none
    | c :: rest =>
      if colonOrSpace c then
        let r1 := rest.dropWhile colonOrSpace
        let (ds, r2) := r1.span Char.isDigit
        if ds.isEmpty then none
        else
          let withFrac : Option (List Char × List Char × SizeUnit) :=
            match r2 with
            | '.' :: r3 =>
              let (fs, r4) := r3.span Char.isDigit
              if fs.isEmpty then none
              else
                match sizeUnitAt (r4.dropWhile isSpaceGo) with
                | some u => some (ds, fs, u)
                | none => none
            | _ => none
          match withFrac with
          | some res => some res
          | none =>
            match sizeUnitAt (r2.dropWhile isSpaceGo) with
            | some u => some (ds, [], u)
            | none => none
      else none

/-- The captured number as `Sscanf(%f)` reads it: integer part plus
fraction (exact rational in this model). -/
def fracVal (ds fs : List Char) : ℚ :=
  (digitsVal ds : ℚ) + (digitsVal fs : ℚ) / ((10 : ℚ) ^ fs.length)

/-- The unit switch of `estimateBytesFromLogs` (oc_mirror.go lines
286-295): multiply and truncate to `int64` (`Int.floor` on the
non-negative values the digit capture produces). -/
def sizeValueBytes (q : ℚ) (u : SizeUnit) : ℤ :=
  match u with
  | SizeUnit.gb => Int.floor (q * (1024 * 1024 * 1024))
  | SizeUnit.mb => Int.floor (q * (1024 * 1024))
  | SizeUnit.kb => Int.floor (q * 1024)
  | SizeUnit.bytesWord => Int.floor q

/-- `(*CommandOutput).estimateBytesFromLogs` (oc_mirror.go lines 272-302):
the per-line size-annotation values are SUMMED. -/
def estimateBytesFromLogs (logs : List String) : ℤ :=
  logs.foldl
    (fun acc s =>
      match findFirstMatch sizeMatchAt (lowerLine s) with
      | some (ds, fs, u) => acc + sizeValueBytes (fracVal ds fs) u
      | none => acc)
    0

/-- `(*CommandOutput).ExtractBytesUploaded` (oc_mirror.go lines 229-270):
running maximum of all normalised pattern matches, falling back to the
summed size estimate whenever that maximum is zero. -/
def extractBytesUploaded (logs : List String) : ℤ :=
  let totalBytes := logs.foldl
    (fun acc s => (lineCandidates (lowerLine s)).foldl (fun a v => if a < v then v else a) acc)
    0
  if totalBytes = 0 then estimateBytesFromLogs logs else totalBytes

/-- Modelled from the spec: the maximum single value matched across all
log lines by the extraction patterns, normalised to bytes (zero when
nothing matches). -/
def specMaxMatchedBytes (logs : List String) : ℤ :=
  ((logs.map (fun s => lineCandidates (lowerLine s))).flatten).foldl max 0

/-- The running-maximum step of `ExtractBytesUploaded`
(`if bytes > totalBytes { totalBytes = bytes }`) is `max`. -/
theorem if_lt_step_eq_max (a v : ℤ) : (if a < v then v else a) = max a v := by
  rcases lt_or_ge a v with h | h
  · rw [if_pos h, max_eq_right h.le]
  · rw [if_neg (not_lt.mpr h), max_eq_left h]

/-- Folding the running-maximum step equals folding `max`. -/
theorem foldl_if_lt_eq_foldl_max (l : List ℤ) (a : ℤ) :
    l.foldl (fun x y => if x < y then y else x) a = l.foldl max a := by
  simp only [if_lt_step_eq_max]

/-- The nested per-line maximum loop equals one `max`-fold over the
flattened candidate list. -/
theorem foldl_max_inner (f : String → List ℤ) :
    ∀ (xs : List String) (a : ℤ),
      xs.foldl (fun acc s => (f s).foldl (fun x y => if x < y then y else x) acc) a
        = ((xs.map f).flatten).foldl max a
  | [], _ => rfl
  | s :: rest, a => by
    simp only [List.foldl_cons, List.map_cons, List.flatten_cons, List.foldl_append]
    rw [foldl_if_lt_eq_foldl_max]
    exact foldl_max_inner f rest ((f s).foldl max a)

/-- `ExtractBytesUploaded` in terms of the spec's maximum: the maximum of
the normalised matches when that maximum is non-zero, the summed size
estimate otherwise. -/
theorem extract_eq_spec (logs : List String) :
    extractBytesUploaded logs
      = if specMaxMatchedBytes logs = 0 then estimateBytesFromLogs logs
        else specMaxMatchedBytes logs := by
  have h := foldl_max_inner (fun s => lineCandidates (lowerLine s)) logs 0
  simp only [extractBytesUploaded, specMaxMatchedBytes, h]

/-- Two log lines carrying only size annotations, no upload phrasing. -/
def sizeLogsC6 : List String := ["size: 5 bytes", "size: 5 bytes"]

/-- Claim C6 (counterexample): on logs where no extraction pattern matches
(maximum matched value 0), `ExtractBytesUploaded` does not return that
maximum: it falls back to `estimateBytesFromLogs`, which SUMS the size
annotations — here two lines of 5 bytes yield 10, not 0 (and not the
maximum single annotation, 5). -/
theorem extract_bytes_counterexample :
    specMaxMatchedBytes sizeLogsC6 = 0 ∧
    extractBytesUploaded sizeLogsC6 = 10 ∧
    extractBytesUploaded sizeLogsC6 ≠ specMaxMatchedBytes sizeLogsC6 := by
  have hmax : specMaxMatchedBytes sizeLogsC6 = 0 := by decide
  have hfind : findFirstMatch sizeMatchAt (lowerLine "size: 5 bytes")
      = some (['5'], [], SizeUnit.bytesWord) := by decide
  have h5 : digitsVal ['5'] = 5 := by decide
  have hval : sizeValueBytes (fracVal ['5'] []) SizeUnit.bytesWord = 5 := by
    simp [sizeValueBytes, fracVal, h5, digitsVal]
  have hest : estimateBytesFromLogs sizeLogsC6 = 10 := by
    simp [estimateBytesFromLogs, sizeLogsC6, hfind, hval]
  have hext : extractBytesUploaded sizeLogsC6 = 10 := by
    rw [extract_eq_spec, if_pos hmax, hest]
  refine ⟨hmax, hext, ?_⟩
  rw [hext, hmax]
  norm_num

/-- Claim C6 (amended): `ExtractBytesUploaded` returns the maximum single
normalised value matched across all log lines whenever that maximum is
non-zero; when no pattern matches a non-zero value it instead returns the
SUM of the per-line size-annotation estimates of
`estimateBytesFromLogs`. -/
theorem extract_bytes_amended :
    (∀ logs : List String, specMaxMatchedBytes logs ≠ 0 →
      extractBytesUploaded logs = specMaxMatchedBytes logs) ∧
    (∀ logs : List String, specMaxMatchedBytes logs = 0 →
      extractBytesUploaded logs = estimateBytesFromLogs logs) := by
  constructor <;> intro logs h <;> rw [extract_eq_spec] <;> simp [h]

/-- A log line the second extraction pattern matches. -/
def uploadLogsC6 : List String := ["uploaded 5 bytes"]

/-- Claim C6 (witness): the amended theorem on a concrete log where the
maximum matched value is 5. -/
theorem extract_bytes_amended_witness :
    extractBytesUploaded uploadLogsC6 = specMaxMatchedBytes uploadLogsC6 ∧
    specMaxMatchedBytes uploadLogsC6 = 5 :=
  ⟨extract_bytes_amended.1 uploadLogsC6 (by decide), by decide⟩

/-- Truncation to a 32-bit word. -/
def w32 (n : ℕ) : ℕ := n % 4294967296

/-- Right rotation of a 32-bit word. -/
def rotr32 (x n : ℕ) : ℕ :=
  (x / 2 ^ n) + (x % 2 ^ n) * 2 ^ (32 - n)

/-- Bitwise complement of a 32-bit word. -/
def not32 (x : ℕ) : ℕ := 4294967295 - x

/-- SHA-256 small sigma 0: `rotr 7 ^ rotr 18 ^ shr 3`. -/
def sha256s0 (x : ℕ) : ℕ := Nat.xor (Nat.xor (rotr32 x 7) (rotr32 x 18)) (x / 2 ^ 3)

/-- SHA-256 small sigma 1: `rotr 17 ^ rotr 19 ^ shr 10`. -/
def sha256s1 (x : ℕ) : ℕ := Nat.xor (Nat.xor (rotr32 x 17) (rotr32 x 19)) (x / 2 ^ 10)

/-- SHA-256 big sigma 0: `rotr 2 ^ rotr 13 ^ rotr 22`. -/
def sha256S0 (x : ℕ) : ℕ := Nat.xor (Nat.xor (rotr32 x 2) (rotr32 x 13)) (rotr32 x 22)

/-- SHA-256 big sigma 1: `rotr 6 ^ rotr 11 ^ rotr 25`. -/
def sha256S1 (x : ℕ) : ℕ := Nat.xor (Nat.xor (rotr32 x 6) (rotr32 x 11)) (rotr32 x 25)

/-- SHA-256 choice function. -/
def sha256ch (x y z : ℕ) : ℕ := Nat.xor (Nat.land x y) (Nat.land (not32 x) z)

/-- SHA-256 majority function. -/
def sha256maj (x y z : ℕ) : ℕ :=
  Nat.xor (Nat.xor (Nat.land x y) (Nat.land x z)) (Nat.land y z)

/-- The SHA-256 round constants. -/
def sha256K : List ℕ :=
  [1116352408, 1899447441, 3049323471, 3921009573, 961987163,
   1508970993, 2453635748, 2870763221, 3624381080, 310598401,
   607225278, 1426881987, 1925078388, 2162078206, 2614888103,
   3248222580, 3835390401, 4022224774, 264347078, 604807628,
   770255983, 1249150122, 1555081692, 1996064986, 2554220882,
   2821834349, 2952996808, 3210313671, 3336571891, 3584528711,
   113926993, 338241895, 666307205, 773529912, 1294757372,
   1396182291, 1695183700, 1986661051, 2177026350, 2456956037,
   2730485921, 2820302411, 3259730800, 3345764771, 3516065817,
   3600352804, 4094571909, 275423344, 430227734, 506948616,
   659060556, 883997877, 958139571, 1322822218, 1537002063,
   1747873779, 1955562222, 2024104815, 2227730452, 2361852424,
   2428436474, 2756734187, 3204031479, 3329325298]

/-- The SHA-256 initial hash values. -/
def sha256H0 : List ℕ :=
  [1779033703, 3144134277, 1013904242, 2773480762,
   1359893119, 2600822924, 528734635, 1541459225]

/-- Big-endian byte encoding of a value into `n` bytes. -/
def toBytesBE : ℕ → ℕ → List ℕ
  | 0, _ => []
  | n + 1, v => toBytesBE n (v / 256) ++ [v % 256]

/-- SHA-256 padding: append `0x80`, zeros to 56 mod 64, and the 8-byte
big-endian bit length. -/
def sha256pad (msg : List ℕ) : List ℕ :=
  let l := msg.length
  let k := (119 - l % 64) % 64
  msg ++ [128] ++ List.replicate k 0 ++ toBytesBE 8 (8 * l)

/-- Collect consecutive 4-byte groups into big-endian 32-bit words. -/
def bytesToWords : List ℕ → List ℕ
  | a :: b :: c :: d :: rest => (((a * 256 + b) * 256 + c) * 256 + d) :: bytesToWords rest
  | _ => []

/-- Split a word list into 16-word blocks. -/
def wordBlocks (ws : List ℕ) : List (List ℕ) :=
  if ws.isEmpty then []
  else (ws.take 16) :: wordBlocks (ws.drop 16)
termination_by ws.length
decreasing_by
  simp only [List.length_drop]
  have hpos : 0 < ws.length := by
    cases ws with
    | nil => simp_all
    | cons a l => simp
  omega

/-- Extend a 16-word block by `n` more schedule words. -/
def schedExtend : ℕ → List ℕ → List ℕ
  | 0, ws => ws
  | n + 1, ws =>
    let i := ws.length
    let next := w32 (sha256s1 (ws.getD (i - 2) 0) + ws.getD (i - 7) 0 +
      sha256s0 (ws.getD (i - 15) 0) + ws.getD (i - 16) 0)
    schedExtend n (ws ++ [next])

/-- The 64-word message schedule of one block. -/
def sha256schedule (block : List ℕ) : List ℕ := schedExtend 48 block

/-- One compression round. -/
def sha256round (st : ℕ × ℕ × ℕ × ℕ × ℕ × ℕ × ℕ × ℕ) (wk : ℕ × ℕ) :
    ℕ × ℕ × ℕ × ℕ × ℕ × ℕ × ℕ × ℕ :=
  let (a, b, c, d, e, f, g, h) := st
  let (w, k) := wk
  let t1 := w32 (h + sha256S1 e + sha256ch e f g + k + w)
  let t2 := w32 (sha256S0 a + sha256maj a b c)
  (w32 (t1 + t2), a, b, c, w32 (d + t1), e, f, g)

/-- Process one 16-word block into the running hash state. -/
def sha256block (hs : List ℕ) (block : List ℕ) : List ℕ :=
  match hs with
  | [h0, h1, h2, h3, h4, h5, h6, h7] =>
    let ws := sha256schedule block
    let (a, b, c, d, e, f, g, h) :=
      (ws.zip sha256K).foldl sha256round (h0, h1, h2, h3, h4, h5, h6, h7)
    [w32 (h0 + a), w32 (h1 + b), w32 (h2 + c), w32 (h3 + d),
     w32 (h4 + e), w32 (h5 + f), w32 (h6 + g), w32 (h7 + h)]
  | _ => hs

/-- SHA-256 digest of a byte list, as a 32-byte list. -/
def sha256 (msg : List ℕ) : List ℕ :=
  let blocks := wordBlocks (bytesToWords (sha256pad msg))
  let final := blocks.foldl sha256block sha256H0
  (final.map (toBytesBE 4)).flatten

/-- One hexadecimal digit. -/
def hexDigit (n : ℕ) : Char :=
  if n < 10 then Char.ofNat (48 + n) else Char.ofNat (87 + n)

/-- Lower-case hex encoding of a byte list (`hex.EncodeToString`). -/
def bytesToHex (bs : List ℕ) : String :=
  String.mk ((bs.map (fun b => [hexDigit (b / 16), hexDigit (b % 16)])).flatten)

/-- The bytes Go's `[]byte(s)` produces for the ASCII hash strings the
verifier concatenates. -/
def strBytes (s : String) : List ℕ := s.data.map Char.toNat

/-- `sort.Strings`: the unique `≤`-sorted permutation, realised by
insertion sort. -/
def sortStrings (l : List String) : List String :=
  l.insertionSort (· ≤ ·)

/-- One file as the combined-hash computation of `Analyze` sees it: its
path relative to the root and its content hash (full SHA-256 hex for
small files, the `size:`-pseudo-hash for large ones). -/
structure FileEntry where
  relPath : String
  hash : String
  deriving Repr, DecidableEq

/-- The `DirectoryHash` computed at the end of `OutputVerifier.Analyze`
(output.go lines 148-154): collect every file's hash string in visitation
order, sort, concatenate, and hex-encode the SHA-256 of the result. -/
def analyzeDirectoryHash (files : List FileEntry) : String :=
  bytesToHex (sha256 (strBytes (String.join (sortStrings (files.map (·.hash))))))

/-- Sorting with `sort.Strings` is invariant under permutation of the
input: a permutation sorted two ways gives the same list. -/
theorem sortStrings_perm_eq (l1 l2 : List String) (h : l1.Perm l2) :
    sortStrings l1 = sortStrings l2 :=
  List.eq_of_perm_of_sorted
    ((List.perm_insertionSort _ l1).trans (h.trans (List.perm_insertionSort _ l2).symm))
    (List.sorted_insertionSort _ l1)
    (List.sorted_insertionSort _ l2)

/-- Claim C7: the combined directory fingerprint of
`OutputVerifier.Analyze` is order-independent — for a fixed set of files
with fixed contents, any permutation of the file-visitation order yields
the identical `DirectoryHash`, because the per-file hashes are sorted
before being concatenated and digested. -/
theorem directory_hash_order_independent (files1 files2 : List FileEntry)
    (h : files1.Perm files2) :
    analyzeDirectoryHash files1 = analyzeDirectoryHash files2 := by
  unfold analyzeDirectoryHash
  rw [sortStrings_perm_eq _ _ (h.map (·.hash))]

/-- A small file entry for the fingerprint witness. -/
def fileEntryA : FileEntry := { relPath := "a/1.json", hash := "0b" }

/-- A second small file entry for the fingerprint witness. -/
def fileEntryB : FileEntry := { relPath := "b/2.json", hash := "aa" }

/-- Claim C7 (witness): visiting the same two files in either order gives
the identical directory hash. -/
theorem directory_hash_order_independent_witness :
    analyzeDirectoryHash [fileEntryA, fileEntryB]
      = analyzeDirectoryHash [fileEntryB, fileEntryA] :=
  directory_hash_order_independent _ _ (List.Perm.swap fileEntryB fileEntryA [])
